import Mathlib

/-!
Verification of the ticktick-mcp core against its natural-language
specification.

The development shallowly embeds the two stateful components of the
repository — the OAuth2 token lifecycle (`src/ticktick_mcp/utils/oauth.py`,
`src/ticktick_mcp/utils/auth.py`) and the TTL response cache of the API
client (`src/ticktick_mcp/client/api.py`) — together with the
read-modify-write merge of the `update_task` tool
(`src/ticktick_mcp/tools/task_tools.py`).

Conventions used throughout:
* Python `datetime` values are modelled at two levels of abstraction,
  matching what each piece of code observes: arithmetic/comparison code
  (`is_expired`, the token flow) sees a timestamp as an `Int` (seconds on
  the time axis; `datetime` comparison and `timedelta` addition are order-
  isomorphic to epoch arithmetic), while the serialization code
  (`save_token` / `load_token`), which renders and re-parses the textual
  `str(datetime)` form, sees a structured `PyDateTime`.
* Fallible Python code is modelled with `Except PyErr`; an exception that
  a `try` block catches is part of the normal return value of the
  function that catches it, an uncaught one is an `Except.error`.
* I/O performed by a function is made observable as a `List Effect`
  returned alongside its result, so "performs no I/O" is the statement
  that the effect trace is `[]`.
-/

namespace TickTick

/-- Kinds of Python exceptions that the embedded code can raise or catch.
`valueErrorParse` is the `ValueError` raised by `datetime.fromisoformat`;
`valueErrorAuthRequired` is the `ValueError` raised at the end of
`TickTickAuth.get_token` (it carries its message so that the authorization
URL it embeds verbatim can be inspected); `runtimeErrorCoroutineReused` is
the `RuntimeError` raised when an already-awaited coroutine is awaited
again. -/
inductive PyErr where
  | keyError (key : String)
  | typeError
  | valueErrorParse
  | validationError
  | httpStatusError (status : Nat)
  | valueErrorAuthRequired (msg : String)
  | runtimeErrorCoroutineReused
deriving Repr, DecidableEq

/-- Observable I/O actions of the credential-manager code. -/
inductive Effect where
  | storageRead
  | storageWrite
  | networkCall
deriving Repr, DecidableEq

/-! ## Task model and the `update_task` merge (task_tools.py, api.py)

`Task` mirrors the pydantic model `Task` of `client/api.py`; the two
`datetime` fields use the `Int` timestamp abstraction. -/

structure Task where
  id : String
  title : String
  content : Option String
  project_id : Option String
  start_date : Option Int
  due_date : Option Int
  status : Option Int
  priority : Option Int
  tags : List String
deriving Repr, DecidableEq

/-- Mirrors `UpdateTaskInput` of `tools/task_tools.py`: `task_id` is
required, every other field is optional with default `None`. -/
structure UpdateTaskInput where
  task_id : String
  title : Option String
  content : Option String
  project_id : Option String
  due_date : Option Int
  tags : Option (List String)
deriving Repr, DecidableEq

/-- A value appearing in the `update_data` dict of
`TaskTools.update_task`: the dict is heterogeneous, holding strings, a
datetime, or a list of strings. -/
inductive FieldVal where
  | s (v : String)
  | dt (v : Int)
  | strs (v : List String)
deriving Repr, DecidableEq

/-- Model of `input_data.dict(exclude_none=True)` of `TaskTools.update_task`:
the input's fields in declaration order, with `None`-valued fields
omitted.  `task_id` is a required `str`, so it is always present. -/
def updateData (i : UpdateTaskInput) : List (String × FieldVal) :=
  [("task_id", FieldVal.s i.task_id)]
    ++ (match i.title with | some v => [("title", FieldVal.s v)] | none => [])
    ++ (match i.content with | some v => [("content", FieldVal.s v)] | none => [])
    ++ (match i.project_id with | some v => [("project_id", FieldVal.s v)] | none => [])
    ++ (match i.due_date with | some v => [("due_date", FieldVal.dt v)] | none => [])
    ++ (match i.tags with | some v => [("tags", FieldVal.strs v)] | none => [])

/-- Model of `setattr(current_task, key, value)` for the keys that can occur in
`update_data`.  A supplied `str` lands in an `Optional[str]` slot of
`Task` as that string (`some v`).  Keys other than the five updatable
ones do not occur with a matching value shape; the catch-all returns the
task unchanged. -/
def setattrTask (t : Task) (key : String) (v : FieldVal) : Task :=
  match key, v with
  | "title", FieldVal.s w => { t with title := w }
  | "content", FieldVal.s w => { t with content := some w }
  | "project_id", FieldVal.s w => { t with project_id := some w }
  | "due_date", FieldVal.dt w => { t with due_date := some w }
  | "tags", FieldVal.strs w => { t with tags := w }
  | _, _ => t

/-- The update loop of `TaskTools.update_task`:
`for key, value in update_data.items(): if key != 'task_id':
setattr(current_task, key, value)`. -/
def applyUpdate (i : UpdateTaskInput) (current : Task) : Task :=
  (updateData i).foldl
    (fun t kv => if kv.1 = "task_id" then t else setattrTask t kv.1 kv.2)
    current

/-! ## OAuth2 token, expiry, and the handler flow (oauth.py, auth.py) -/

/-- Mirrors the pydantic model `OAuth2Token` of `utils/oauth.py`,
polymorphic in the representation of the `created_at` datetime (an `Int`
timestamp for the arithmetic layer, a structured `PyDateTime` for the
serialization layer). -/
structure OAuth2Token (DT : Type) where
  access_token : String
  token_type : String
  expires_in : Int
  refresh_token : Option String
  scope : Option String
  created_at : DT
deriving Repr, DecidableEq

/-- Model of `OAuth2Token.is_expired` of `utils/oauth.py`:
`expiry = self.created_at + timedelta(seconds=self.expires_in);
return datetime.now() >= expiry`, with the current time passed
explicitly. -/
def OAuth2Token.is_expired (t : OAuth2Token Int) (now : Int) : Bool :=
  decide (t.created_at + t.expires_in ≤ now)

/-- The body of a successful token-endpoint response, as consumed by
`OAuth2Token(**response.json())`.  Per the OAuth2 token-response shape
the body carries `access_token`, `token_type`, `expires_in` and
optionally `refresh_token` and `scope`; it carries no `created_at`
field. -/
structure TokenResponse where
  access_token : String
  token_type : String
  expires_in : Int
  refresh_token : Option String
  scope : Option String
deriving Repr, DecidableEq

/-- Model of `OAuth2Token(**response.json())`.  The class body of `OAuth2Token`
declares `created_at: datetime = datetime.now()`: that default is
evaluated ONCE, when the module is imported, so every token built from a
token-endpoint response (which has no `created_at` key) receives the
module-import timestamp `importTime` — the constructor never consults
the clock at call time. -/
def mkTokenFromResponse (importTime : Int) (r : TokenResponse) : OAuth2Token Int :=
  { access_token := r.access_token
    token_type := r.token_type
    expires_in := r.expires_in
    refresh_token := r.refresh_token
    scope := r.scope
    created_at := importTime }

/-- Outcome of an HTTP POST to the token endpoint as observed through
`response.raise_for_status()`: either a 2xx response with a parsed JSON
body, or a status that makes `raise_for_status` raise.  A transport
error behaves like the raising branch (an exception before any
assignment to `self._token`). -/
inductive HttpResult where
  | success (body : TokenResponse)
  | httpError (status : Nat)
deriving Repr, DecidableEq

/-- State of `OAuth2Handler` of `utils/oauth.py`: constructor arguments
plus the held token `self._token`. -/
structure OAuth2Handler where
  client_id : String
  client_secret : String
  redirect_uri : Option String
  scope : String
  token : Option (OAuth2Token Int)
deriving Repr, DecidableEq

/-- The constant `OAuth2Handler.AUTH_URL`. -/
def AUTH_URL : String := "https://ticktick.com/oauth/authorize"

/-- Hexadecimal digit character (uppercase), used by percent-encoding. -/
def hexDigit (n : Nat) : Char :=
  if n < 10 then Char.ofNat (48 + n) else Char.ofNat (55 + n)

/-- Percent-encoding of one character as performed by
`httpx.QueryParams` (urlencode with quote-plus semantics): ASCII
letters, digits and `_.-~` pass through, a space becomes `+`, anything
else becomes `%XX` of its code point (ASCII payloads assumed — the
configuration strings fed to it here are ASCII). -/
def percentEncodeChar (c : Char) : List Char :=
  if (65 ≤ c.toNat ∧ c.toNat ≤ 90) ∨ (97 ≤ c.toNat ∧ c.toNat ≤ 122)
      ∨ (48 ≤ c.toNat ∧ c.toNat ≤ 57)
      ∨ c = '_' ∨ c = '.' ∨ c = '-' ∨ c = '~' then
    [c]
  else if c = ' ' then
    ['+']
  else
    ['%', hexDigit (c.toNat / 16 % 16), hexDigit (c.toNat % 16)]

/-- Percent-encode a whole string. -/
def percentEncode (s : String) : String :=
  String.mk (List.flatten (s.data.map percentEncodeChar))

/-- Model of `str(httpx.QueryParams(params))`: `k=v` pairs joined by `&`, both
sides percent-encoded. -/
def urlencodeParams (ps : List (String × String)) : String :=
  String.intercalate "&" (ps.map (fun p => percentEncode p.1 ++ "=" ++ percentEncode p.2))

/-- The `params` dict built by `OAuth2Handler.get_authorization_url`,
with `redirect_uri` appended only when configured. -/
def authParams (h : OAuth2Handler) : List (String × String) :=
  [("client_id", h.client_id), ("response_type", "code"), ("scope", h.scope)]
    ++ (match h.redirect_uri with
        | some r => [("redirect_uri", r)]
        | none => [])

/-- Model of `OAuth2Handler.get_authorization_url`:
`f"{self.AUTH_URL}?{httpx.QueryParams(params)}"`. -/
def getAuthorizationUrl (h : OAuth2Handler) : String :=
  AUTH_URL ++ "?" ++ urlencodeParams (authParams h)

/-- Model of `OAuth2Handler.fetch_token`: POST to the token endpoint, raise on a
non-2xx response (before any assignment), otherwise build the token from
the response body, store it in `self._token` and return it. -/
def fetchToken (importTime : Int) (h : OAuth2Handler) (resp : HttpResult) :
    Except PyErr (OAuth2Token Int) × OAuth2Handler × List Effect :=
  match resp with
  | HttpResult.httpError s => (Except.error (PyErr.httpStatusError s), h, [Effect.networkCall])
  | HttpResult.success b =>
      let t := mkTokenFromResponse importTime b
      (Except.ok t, { h with token := some t }, [Effect.networkCall])

/-- Model of `OAuth2Handler.refresh_token`: identical control flow to
`fetch_token` (only the request payload differs, which the model does
not observe): `response.raise_for_status()` runs before
`self._token = OAuth2Token(**response.json())`, so on failure the held
token is untouched. -/
def refreshToken (importTime : Int) (h : OAuth2Handler) (resp : HttpResult) :
    Except PyErr (OAuth2Token Int) × OAuth2Handler × List Effect :=
  match resp with
  | HttpResult.httpError s => (Except.error (PyErr.httpStatusError s), h, [Effect.networkCall])
  | HttpResult.success b =>
      let t := mkTokenFromResponse importTime b
      (Except.ok t, { h with token := some t }, [Effect.networkCall])

/-- Model of `OAuth2Handler.get_valid_token`: return `None` when no token is
held; return the held token when it is not expired (no I/O); attempt a
refresh when it is expired and carries a refresh token (the refresh
outcome is supplied as `refreshResp`); return `None` otherwise. -/
def getValidToken (importTime : Int) (h : OAuth2Handler) (now : Int) (refreshResp : HttpResult) :
    Except PyErr (Option (OAuth2Token Int)) × OAuth2Handler × List Effect :=
  match h.token with
  | none => (Except.ok none, h, [])
  | some t =>
      if t.is_expired now then
        match t.refresh_token with
        | some _rt =>
            match refreshToken importTime h refreshResp with
            | (Except.ok nt, h2, eff) => (Except.ok (some nt), h2, eff)
            | (Except.error e, h2, eff) => (Except.error e, h2, eff)
        | none => (Except.ok none, h, [])
      else
        (Except.ok (some t), h, [])

/-! ## Structured datetimes and `str` / `fromisoformat` (oauth.py storage) -/

/-- A Python `datetime` value, field for field (naive, no timezone, as
produced by `datetime.now()`). -/
structure PyDateTime where
  year : Nat
  month : Nat
  day : Nat
  hour : Nat
  minute : Nat
  second : Nat
  microsecond : Nat
deriving Repr, DecidableEq

/-- Gregorian leap-year rule, as in Python's `calendar.isleap`. -/
def isLeap (y : Nat) : Bool :=
  decide (y % 4 = 0 ∧ (y % 100 ≠ 0 ∨ y % 400 = 0))

/-- Length of a month, as enforced by the `datetime` constructor. -/
def daysInMonth (y m : Nat) : Nat :=
  if m = 2 then (if isLeap y then 29 else 28)
  else if m = 4 ∨ m = 6 ∨ m = 9 ∨ m = 11 then 30
  else 31

/-- The field invariants of a Python `datetime` object, i.e. the checks
that its constructor (and hence `fromisoformat`) performs. -/
def validPyDateTime (d : PyDateTime) : Bool :=
  decide (1 ≤ d.year ∧ d.year ≤ 9999 ∧ 1 ≤ d.month ∧ d.month ≤ 12 ∧ 1 ≤ d.day)
    && decide (d.day ≤ daysInMonth d.year d.month)
    && decide (d.hour ≤ 23 ∧ d.minute ≤ 59 ∧ d.second ≤ 59 ∧ d.microsecond ≤ 999999)

/-- The decimal digit character for `n < 10`. -/
def digitChar (n : Nat) : Char := Char.ofNat (48 + n)

/-- Two-digit zero-padded rendering (for `n < 100`). -/
def pad2 (n : Nat) : List Char := [digitChar (n / 10), digitChar (n % 10)]

/-- Four-digit zero-padded rendering (for `n < 10000`). -/
def pad4 (n : Nat) : List Char :=
  [digitChar (n / 1000), digitChar (n / 100 % 10), digitChar (n / 10 % 10), digitChar (n % 10)]

/-- Six-digit zero-padded rendering (for `n < 1000000`). -/
def pad6 (n : Nat) : List Char :=
  [digitChar (n / 100000), digitChar (n / 10000 % 10), digitChar (n / 1000 % 10),
   digitChar (n / 100 % 10), digitChar (n / 10 % 10), digitChar (n % 10)]

/-- Model of `str(datetime)` = `datetime.isoformat(sep=' ')`:
`YYYY-MM-DD HH:MM:SS`, extended with `.ffffff` exactly when the
microsecond field is nonzero. -/
def pyStrChars (d : PyDateTime) : List Char :=
  pad4 d.year ++ ['-'] ++ pad2 d.month ++ ['-'] ++ pad2 d.day ++ [' ']
    ++ pad2 d.hour ++ [':'] ++ pad2 d.minute ++ [':'] ++ pad2 d.second
    ++ (if d.microsecond = 0 then [] else ['.'] ++ pad6 d.microsecond)

/-- Model of `str(datetime)` as a `String`. -/
def pyStr (d : PyDateTime) : String := String.mk (pyStrChars d)

/-- Is `c` an ASCII decimal digit? -/
def isDig (c : Char) : Bool := decide (48 ≤ c.toNat ∧ c.toNat ≤ 57)

/-- Numeric value of a digit character. -/
def digitVal (c : Char) : Nat := c.toNat - 48

/-- Read a two-digit decimal field. -/
def read2 (a b : Char) : Option Nat :=
  if isDig a && isDig b then some (digitVal a * 10 + digitVal b) else none

/-- Read a four-digit decimal field. -/
def read4 (a b c d : Char) : Option Nat :=
  if isDig a && isDig b && isDig c && isDig d then
    some (((digitVal a * 10 + digitVal b) * 10 + digitVal c) * 10 + digitVal d)
  else none

/-- Read the optional fractional-seconds tail: empty, or a dot followed
by exactly six digits (the shape `str(datetime)` emits). -/
def readMicro : List Char → Option Nat
  | [] => some 0
  | ['.', u1, u2, u3, u4, u5, u6] =>
      if isDig u1 && isDig u2 && isDig u3 && isDig u4 && isDig u5 && isDig u6 then
        some (((((digitVal u1 * 10 + digitVal u2) * 10 + digitVal u3) * 10
          + digitVal u4) * 10 + digitVal u5) * 10 + digitVal u6)
      else none
  | _ => none

/-- Model of `datetime.fromisoformat` on the layouts `str(datetime)` produces:
`YYYY-MM-DD HH:MM:SS[.ffffff]`, with the `datetime` constructor's range
checks applied to the parsed fields; `none` models the `ValueError` it
raises on anything else. -/
def fromIsoChars : List Char → Option PyDateTime
  | y1 :: y2 :: y3 :: y4 :: '-' :: m1 :: m2 :: '-' :: d1 :: d2 :: ' '
      :: h1 :: h2 :: ':' :: n1 :: n2 :: ':' :: s1 :: s2 :: rest =>
      match read4 y1 y2 y3 y4, read2 m1 m2, read2 d1 d2,
            read2 h1 h2, read2 n1 n2, read2 s1 s2, readMicro rest with
      | some y, some mo, some dd, some hh, some mm, some ss, some us =>
          let dt : PyDateTime := ⟨y, mo, dd, hh, mm, ss, us⟩
          if validPyDateTime dt then some dt else none
      | _, _, _, _, _, _, _ => none
  | _ => none

/-- Model of `datetime.fromisoformat` on a `String`. -/
def fromIsoFormat (s : String) : Option PyDateTime := fromIsoChars s.data

/-! ## Token serialization: `save_token` / `load_token` (oauth.py) -/

/-- A parsed JSON value, as produced by `json.load`. -/
inductive JValue where
  | jnull
  | jbool (b : Bool)
  | jstr (s : String)
  | jint (n : Int)
  | jarr (xs : List JValue)
  | jobj (fields : List (String × JValue))

/-- What the token file at the storage path can look like to
`load_token`: missing (`open` raises `FileNotFoundError`), present but
not syntactically valid JSON (`json.load` raises `JSONDecodeError`), or
present with a parsed JSON value. -/
inductive FileContent where
  | absent
  | notJson
  | json (j : JValue)

/-- Python dict lookup `fields[k]` on a parsed JSON object. -/
def jlookup (fields : List (String × JValue)) (k : String) : Option JValue :=
  match fields with
  | [] => none
  | (k2, v) :: rest => if k2 = k then some v else jlookup rest k

/-- Model of `json.dump(..., default=str)` of an `Optional[str]` field value. -/
def optStrJson : Option String → JValue
  | none => JValue.jnull
  | some s => JValue.jstr s

/-- Model of `self._token.dict()` serialized by `json.dump(..., default=str)`:
every field in declaration order, `None` becoming `null` and the
`created_at` datetime rendered through `str` (the `default=str` hook). -/
def tokenToJson (t : OAuth2Token PyDateTime) : JValue :=
  JValue.jobj
    [("access_token", JValue.jstr t.access_token),
     ("token_type", JValue.jstr t.token_type),
     ("expires_in", JValue.jint t.expires_in),
     ("refresh_token", optStrJson t.refresh_token),
     ("scope", optStrJson t.scope),
     ("created_at", JValue.jstr (pyStr t.created_at))]

/-- Model of `OAuth2Handler.save_token` with a token held: the file now holds the
serialized token. -/
def saveToken (t : OAuth2Token PyDateTime) : FileContent :=
  FileContent.json (tokenToJson t)

/-- Model of `int(s)` on a decimal digit string (accumulator form). -/
def digitsToNatAux : Nat → List Char → Option Nat
  | acc, [] => some acc
  | acc, c :: cs => if isDig c then digitsToNatAux (acc * 10 + digitVal c) cs else none

/-- Model of `int(s)`: optional sign then at least one digit (`none` models the
`ValueError` pydantic turns into a validation error). -/
def strToInt (s : String) : Option Int :=
  match s.data with
  | [] => none
  | '-' :: rest =>
      match rest with
      | [] => none
      | _ => (digitsToNatAux 0 rest).map (fun n => -(n : Int))
  | l => (digitsToNatAux 0 l).map (fun n => (n : Int))

/-- Pydantic v1 validation of a required `str` field: accepts a JSON
string; coerces numbers and booleans via `str()`; rejects null, missing
and structured values. -/
def pyRequiredStr (v : Option JValue) : Except PyErr String :=
  match v with
  | some (JValue.jstr s) => Except.ok s
  | some (JValue.jint n) => Except.ok (toString n)
  | some (JValue.jbool b) => Except.ok (if b then "True" else "False")
  | _ => Except.error PyErr.validationError

/-- Pydantic v1 validation of a required `int` field: accepts a JSON
integer or boolean, coerces a numeric string via `int()`, rejects the
rest. -/
def pyRequiredInt (v : Option JValue) : Except PyErr Int :=
  match v with
  | some (JValue.jint n) => Except.ok n
  | some (JValue.jbool b) => Except.ok (if b then 1 else 0)
  | some (JValue.jstr s) =>
      match strToInt s with
      | some n => Except.ok n
      | none => Except.error PyErr.validationError
  | _ => Except.error PyErr.validationError

/-- Pydantic v1 validation of an `Optional[str] = None` field: missing
or null yields `None`; a string is taken as is; numbers and booleans
coerce; structured values are rejected. -/
def pyOptionalStr (v : Option JValue) : Except PyErr (Option String) :=
  match v with
  | none => Except.ok none
  | some JValue.jnull => Except.ok none
  | some (JValue.jstr s) => Except.ok (some s)
  | some (JValue.jint n) => Except.ok (some (toString n))
  | some (JValue.jbool b) => Except.ok (some (if b then "True" else "False"))
  | _ => Except.error PyErr.validationError

/-- Model of `OAuth2Token(**data)` where `data` is the loaded JSON dict whose
`created_at` entry has already been replaced by the parsed datetime
object: validate each declared field against the dict (extra keys are
ignored, as in pydantic's default config). -/
def validateToken (fields : List (String × JValue)) (created : PyDateTime) :
    Except PyErr (OAuth2Token PyDateTime) :=
  match pyRequiredStr (jlookup fields "access_token"),
        pyRequiredStr (jlookup fields "token_type"),
        pyRequiredInt (jlookup fields "expires_in"),
        pyOptionalStr (jlookup fields "refresh_token"),
        pyOptionalStr (jlookup fields "scope") with
  | Except.ok a, Except.ok ty, Except.ok e, Except.ok r, Except.ok sc =>
      Except.ok ⟨a, ty, e, r, sc, created⟩
  | Except.error err, _, _, _, _ => Except.error err
  | _, Except.error err, _, _, _ => Except.error err
  | _, _, Except.error err, _, _ => Except.error err
  | _, _, _, Except.error err, _ => Except.error err
  | _, _, _, _, Except.error err => Except.error err

/-- Model of `OAuth2Handler.load_token`.  The `try` block catches exactly
`FileNotFoundError` and `json.JSONDecodeError`, returning `None`; every
other exception escapes: a non-dict JSON value makes `data["created_at"]`
raise `TypeError`, a dict without the key raises `KeyError`, a non-string
value makes `fromisoformat` raise `TypeError`, an unparsable string makes
it raise `ValueError`, and a field that fails model validation raises
pydantic's `ValidationError`. -/
def loadToken (c : FileContent) : Except PyErr (Option (OAuth2Token PyDateTime)) :=
  match c with
  | FileContent.absent => Except.ok none
  | FileContent.notJson => Except.ok none
  | FileContent.json (JValue.jobj fields) =>
      match jlookup fields "created_at" with
      | none => Except.error (PyErr.keyError "created_at")
      | some (JValue.jstr s) =>
          match fromIsoFormat s with
          | none => Except.error PyErr.valueErrorParse
          | some dt =>
              match validateToken fields dt with
              | Except.ok t => Except.ok (some t)
              | Except.error e => Except.error e
      | some _ => Except.error PyErr.typeError
  | FileContent.json _ => Except.error PyErr.typeError

/-! ## The `TickTickAuth.get_token` flow (auth.py) -/

/-- Seconds since the Unix epoch of a `PyDateTime` (days-from-civil
algorithm), used to move a token loaded by the serialization layer into
the arithmetic layer. -/
def PyDateTime.toEpoch (dt : PyDateTime) : Int :=
  let y : Int := if dt.month ≤ 2 then (dt.year : Int) - 1 else (dt.year : Int)
  let era : Int := (if 0 ≤ y then y else y - 399) / 400
  let yoe : Int := y - era * 400
  let mp : Int := ((dt.month : Int) + 9) % 12
  let doy : Int := (153 * mp + 2) / 5 + (dt.day : Int) - 1
  let doe : Int := yoe * 365 + yoe / 4 - yoe / 100 + doy
  let days : Int := era * 146097 + doe - 719468
  days * 86400 + (dt.hour : Int) * 3600 + (dt.minute : Int) * 60 + (dt.second : Int)

/-- View a deserialized token through the timestamp abstraction. -/
def toIntToken (t : OAuth2Token PyDateTime) : OAuth2Token Int :=
  { access_token := t.access_token
    token_type := t.token_type
    expires_in := t.expires_in
    refresh_token := t.refresh_token
    scope := t.scope
    created_at := t.created_at.toEpoch }

/-- Mirrors `AuthConfig` of `utils/auth.py` (the token path itself is not part
of the model: the file's content is passed to the flow directly). -/
structure AuthConfig where
  client_id : String
  client_secret : String
  redirect_uri : Option String
  scope : String
deriving Repr, DecidableEq

/-- State of `TickTickAuth`: the configuration and the owned `OAuth2Handler`. -/
structure TickTickAuth where
  config : AuthConfig
  oauth : OAuth2Handler
deriving Repr, DecidableEq

/-- The message of the `ValueError` raised at the end of
`TickTickAuth.get_token`: `f"No valid token found. Please authorize at:
{auth_url}"` — the authorization URL is embedded verbatim. -/
def authRequiredMsg (h : OAuth2Handler) : String :=
  "No valid token found. Please authorize at: " ++ getAuthorizationUrl h

/-- Model of `TickTickAuth.get_token`.  Every call starts by reading the token
file (`load_token`); an exception escaping `load_token` propagates.  A
loaded, unexpired token's `access_token` is returned.  A loaded, expired
token with a refresh token triggers a refresh inside `try`: on success
the new token is persisted (`save_token`) and returned; on failure the
exception is logged and swallowed.  Every remaining path raises
`ValueError` carrying a freshly built authorization URL. -/
def authGetToken (importTime : Int) (a : TickTickAuth) (file : FileContent)
    (now : Int) (refreshResp : HttpResult) :
    Except PyErr String × TickTickAuth × List Effect :=
  match loadToken file with
  | Except.error e => (Except.error e, a, [Effect.storageRead])
  | Except.ok none =>
      (Except.error (PyErr.valueErrorAuthRequired (authRequiredMsg a.oauth)),
       a, [Effect.storageRead])
  | Except.ok (some tdt) =>
      let t := toIntToken tdt
      let a1 : TickTickAuth := { a with oauth := { a.oauth with token := some t } }
      if t.is_expired now then
        match t.refresh_token with
        | some _rt =>
            match refreshToken importTime a1.oauth refreshResp with
            | (Except.ok nt, h2, _) =>
                (Except.ok nt.access_token, { a1 with oauth := h2 },
                 [Effect.storageRead, Effect.networkCall, Effect.storageWrite])
            | (Except.error _, h2, _) =>
                (Except.error (PyErr.valueErrorAuthRequired (authRequiredMsg h2)),
                 { a1 with oauth := h2 },
                 [Effect.storageRead, Effect.networkCall])
        | none =>
            (Except.error (PyErr.valueErrorAuthRequired (authRequiredMsg a1.oauth)),
             a1, [Effect.storageRead])
      else
        (Except.ok t.access_token, a1, [Effect.storageRead])

/-! ## The TTL response cache of `TickTickClient` (api.py)

`get_tasks`, `get_projects` and `get_tags` are `async def`s decorated
with `@cached(cache=TTLCache(maxsize=CACHE_MAXSIZE, ttl=CACHE_TTL))`.
Each decorator evaluates its `TTLCache(...)` argument once, at class
definition time, so each of the three read methods owns its private
cache object.  The constructor separately creates
`self._cache = TTLCache(...)`, and each write method runs
`self._cache.clear()` after a successful request — `self._cache` is
never read anywhere.

Because the decorated functions are `async def`s, what the wrapper
calls and caches is the result of `get_tasks(...)` before any `await`:
a fresh coroutine object.  Awaiting a coroutine runs the body (the
authorization-header step, assumed to succeed, and the backend GET);
awaiting it a second time raises
`RuntimeError: cannot reuse already awaited coroutine`.  Coroutines are
modelled by numeric ids; the body's fetch is observable through
`fetchCount`, and the backend's reply to the n-th GET is `backend n`. -/

/-- The constant `CACHE_TTL` of `TickTickClient`. -/
def CACHE_TTL : Nat := 300

/-- The constant `CACHE_MAXSIZE` of `TickTickClient`. -/
def CACHE_MAXSIZE : Nat := 100

/-- One entry of a `TTLCache` as used by the `@cached` wrapper on
`get_tasks`: key (the `list_id` argument; the single client instance in
the key is elided), the cached coroutine's id, and the insertion
timestamp. -/
structure CacheEntry where
  key : Option String
  coro : Nat
  inserted : Nat
deriving Repr, DecidableEq

/-- Model of `TTLCache.__getitem__` at time `now`: an entry is live while
`now < inserted + ttl`; a hit moves the entry to most-recently-used
position (the head of the list).  Returns the hit's coroutine id and
the reordered table. -/
def ttlGet (cache : List CacheEntry) (key : Option String) (now : Nat) :
    Option (Nat × List CacheEntry) :=
  match cache.find? (fun e => e.key == key) with
  | none => none
  | some e =>
      if now < e.inserted + CACHE_TTL then
        some (e.coro, e :: cache.filter (fun e2 => e2.key != key))
      else
        none

/-- Model of `TTLCache.__setitem__` at time `now`: expired entries are removed
first, the key is overwritten if present, the least-recently-used entry
(tail of the list) is evicted when the table is full, and the new entry
becomes most recently used. -/
def ttlSet (cache : List CacheEntry) (key : Option String) (coro : Nat) (now : Nat) :
    List CacheEntry :=
  let live := (cache.filter (fun e => e.key != key)).filter
    (fun e => now < e.inserted + CACHE_TTL)
  let room := if CACHE_MAXSIZE ≤ live.length then live.dropLast else live
  ⟨key, coro, now⟩ :: room

/-- The observable state of one `TickTickClient`: the private
`TTLCache` owned by the `@cached` decorator on `get_tasks`, the
instance's unused `self._cache`, the coroutine allocator, the set of
already-awaited coroutines, and the number of backend task fetches
issued so far. -/
structure ClientState where
  tasksDecoCache : List CacheEntry
  selfCache : List CacheEntry
  nextCoro : Nat
  awaited : List Nat
  fetchCount : Nat
deriving Repr, DecidableEq

/-- A client as `TickTickClient.__init__` leaves it. -/
def freshClient : ClientState :=
  { tasksDecoCache := [], selfCache := [], nextCoro := 0, awaited := [], fetchCount := 0 }

/-- Calling `client.get_tasks(list_id)` (before any `await`): the
`cached` wrapper looks the key up in the decorator's own `TTLCache`; on
a hit it returns the stored coroutine object, on a miss it creates a
fresh coroutine, stores it and returns it.  No backend request happens
here. -/
def getTasksCall (s : ClientState) (listId : Option String) (now : Nat) :
    Nat × ClientState :=
  match ttlGet s.tasksDecoCache listId now with
  | some (cid, cache2) => (cid, { s with tasksDecoCache := cache2 })
  | none =>
      let cid := s.nextCoro
      (cid, { s with
                tasksDecoCache := ttlSet s.tasksDecoCache listId cid now
                nextCoro := cid + 1 })

/-- Awaiting a `get_tasks` coroutine: the first await runs the body —
the authorization header step (assumed to succeed; it is orthogonal to
cache behaviour) and the backend GET, whose reply is `backend` applied
to the fetch counter — and marks the coroutine consumed.  A second
await of the same coroutine raises `RuntimeError`. -/
def awaitTasksCoro (backend : Nat → List Task) (s : ClientState) (cid : Nat) :
    Except PyErr (List Task) × ClientState :=
  if cid ∈ s.awaited then
    (Except.error PyErr.runtimeErrorCoroutineReused, s)
  else
    (Except.ok (backend s.fetchCount),
     { s with awaited := cid :: s.awaited, fetchCount := s.fetchCount + 1 })

/-- The cache effect shared by all seven write methods (`create_task`,
`update_task`, `delete_task`, `complete_task`, `create_tag`,
`update_tag`, `delete_tag`): after a successful request each runs
exactly `self._cache.clear()`, which empties the instance's `_cache`
and touches nothing else — in particular not the decorator caches. -/
def writeOpCacheEffect (s : ClientState) : ClientState :=
  { s with selfCache := [] }

/-- Awaiting `client.create_task(task)` with a successful backend
response: the POST is issued, then `self._cache.clear()` runs. -/
def createTaskCall (s : ClientState) : ClientState :=
  writeOpCacheEffect s

/-! ## Helper lemmas for the datetime round trip -/

theorem digitChar_isDig (n : Nat) (h : n < 10) : isDig (digitChar n) = true := by
  interval_cases n <;> decide

theorem digitVal_digitChar (n : Nat) (h : n < 10) : digitVal (digitChar n) = n := by
  interval_cases n <;> decide

theorem read2_pad2 (n : Nat) (h : n < 100) :
    read2 (digitChar (n / 10)) (digitChar (n % 10)) = some n := by
  have h1 : n / 10 < 10 := by omega
  have h2 : n % 10 < 10 := by omega
  simp [read2, digitChar_isDig _ h1, digitChar_isDig _ h2,
        digitVal_digitChar _ h1, digitVal_digitChar _ h2]
  omega

theorem read4_pad4 (n : Nat) (h : n < 10000) :
    read4 (digitChar (n / 1000)) (digitChar (n / 100 % 10))
      (digitChar (n / 10 % 10)) (digitChar (n % 10)) = some n := by
  have h1 : n / 1000 < 10 := by omega
  have h2 : n / 100 % 10 < 10 := by omega
  have h3 : n / 10 % 10 < 10 := by omega
  have h4 : n % 10 < 10 := by omega
  simp [read4, digitChar_isDig _ h1, digitChar_isDig _ h2, digitChar_isDig _ h3,
        digitChar_isDig _ h4, digitVal_digitChar _ h1, digitVal_digitChar _ h2,
        digitVal_digitChar _ h3, digitVal_digitChar _ h4]
  omega

theorem readMicro_pad6 (n : Nat) (h : n < 1000000) :
    readMicro ('.' :: pad6 n) = some n := by
  have h1 : n / 100000 < 10 := by omega
  have h2 : n / 10000 % 10 < 10 := by omega
  have h3 : n / 1000 % 10 < 10 := by omega
  have h4 : n / 100 % 10 < 10 := by omega
  have h5 : n / 10 % 10 < 10 := by omega
  have h6 : n % 10 < 10 := by omega
  simp [readMicro, pad6, digitChar_isDig _ h1, digitChar_isDig _ h2, digitChar_isDig _ h3,
        digitChar_isDig _ h4, digitChar_isDig _ h5, digitChar_isDig _ h6,
        digitVal_digitChar _ h1, digitVal_digitChar _ h2, digitVal_digitChar _ h3,
        digitVal_digitChar _ h4, digitVal_digitChar _ h5, digitVal_digitChar _ h6]
  omega

theorem daysInMonth_le_31 (y m : Nat) : daysInMonth y m ≤ 31 := by
  unfold daysInMonth
  split_ifs <;> omega

/-- Parsing inverts printing: `fromisoformat` inverts `str` on every datetime satisfying the
`datetime` constructor's invariants. -/
theorem fromIso_pyStr (d : PyDateTime) (h : validPyDateTime d = true) :
    fromIsoChars (pyStrChars d) = some d := by
  have hb := h
  obtain ⟨y, mo, dd, hh, mm, ss, us⟩ := d
  have hdm := daysInMonth_le_31 y mo
  simp only [validPyDateTime, Bool.and_eq_true, decide_eq_true_eq] at hb
  obtain ⟨⟨⟨hy1, hy2, hmo1, hmo2, hdd1⟩, hdd2⟩, hhh, hmm, hss, hus⟩ := hb
  by_cases husz : us = 0
  · subst husz
    simp only [pyStrChars, pad4, pad2, if_pos rfl, List.cons_append, List.nil_append,
      List.append_nil, List.singleton_append]
    simp only [fromIsoChars]
    rw [read4_pad4 y (by omega), read2_pad2 mo (by omega), read2_pad2 dd (by omega),
        read2_pad2 hh (by omega), read2_pad2 mm (by omega), read2_pad2 ss (by omega)]
    simp [readMicro, h]
  · simp only [pyStrChars, pad4, pad2, if_neg husz, List.cons_append, List.nil_append,
      List.append_nil, List.singleton_append]
    simp only [fromIsoChars]
    rw [read4_pad4 y (by omega), read2_pad2 mo (by omega), read2_pad2 dd (by omega),
        read2_pad2 hh (by omega), read2_pad2 mm (by omega), read2_pad2 ss (by omega),
        readMicro_pad6 us (by omega)]
    simp [h]

deriving instance DecidableEq for Except

/-! ## Claim theorems -/

/-- Claim C2 (code bug): the spec requires `issued_at`/`created_at` to be
the current time at the moment the token object is created, but the code
gives every token built from a token-endpoint response (successful
code-exchange or refresh) the single `datetime.now()` value captured when
the class body ran at module import — the constructor has no access to
the call-time clock at all, so a token created at any later time still
carries the import timestamp. -/
theorem created_at_is_import_time (importTime : Int) (h : OAuth2Handler) (b : TokenResponse) :
    (fetchToken importTime h (HttpResult.success b)).1
        = Except.ok (mkTokenFromResponse importTime b)
      ∧ (mkTokenFromResponse importTime b).created_at = importTime :=
  ⟨rfl, rfl⟩

/-- Claim C3 (confirmed): for a token with `created_at = t0` and
`expires_in = s`, `is_expired` is false exactly when `now < t0 + s` and
true exactly when `now ≥ t0 + s` — the boundary instant counts as
expired. -/
theorem is_expired_boundary (t : OAuth2Token Int) (now : Int) :
    (OAuth2Token.is_expired t now = false ↔ now < t.created_at + t.expires_in)
      ∧ (OAuth2Token.is_expired t now = true ↔ t.created_at + t.expires_in ≤ now) := by
  constructor <;> simp [OAuth2Token.is_expired]

/-- Claim C6 (confirmed): when `OAuth2Handler.get_valid_token` finds a
previously loaded/cached token in `self._token` that is not expired at
call time, it returns exactly that token, leaves the handler unchanged,
and its effect trace is empty — no refresh, no network call, no storage
access, whatever the environment would have answered to a refresh. -/
theorem get_valid_token_cached_no_io (importTime : Int) (h : OAuth2Handler)
    (t : OAuth2Token Int) (now : Int) (resp : HttpResult)
    (htok : h.token = some t) (hlive : t.is_expired now = false) :
    getValidToken importTime h now resp = (Except.ok (some t), h, []) := by
  simp [getValidToken, htok, hlive]

def witToken : OAuth2Token Int :=
  { access_token := "tok", token_type := "bearer", expires_in := 3600,
    refresh_token := none, scope := none, created_at := 0 }

def witHandler : OAuth2Handler :=
  { client_id := "id", client_secret := "secret", redirect_uri := none,
    scope := "tasks:write tasks:read", token := some witToken }

/-- Witness for C6: the stored-token scenario of the spec — a token with
`expires_in = 3600` created 600 seconds ago and no refresh token is
returned as is, with an empty effect trace. -/
theorem get_valid_token_cached_no_io_witness :
    witHandler.token = some witToken
      ∧ OAuth2Token.is_expired witToken 600 = false
      ∧ getValidToken 0 witHandler 600 (HttpResult.httpError 500)
          = (Except.ok (some witToken), witHandler, []) :=
  ⟨rfl, by decide, get_valid_token_cached_no_io 0 witHandler witToken 600 _ rfl (by decide)⟩

/-- Claim C7 (confirmed): in a fresh process with no stored token file
(and whatever the in-memory state, in particular none), the
token-acquisition entry point `TickTickAuth.get_token` — the code
realizing the spec's `get_valid_token` contract — fails with the
authentication-required error, whose message embeds the freshly built
authorization URL verbatim, and that URL starts with the provider's
authorization endpoint. -/
theorem get_token_fresh_auth_required (importTime : Int) (a : TickTickAuth)
    (now : Int) (resp : HttpResult) :
    authGetToken importTime a FileContent.absent now resp
        = (Except.error (PyErr.valueErrorAuthRequired
            ("No valid token found. Please authorize at: " ++ getAuthorizationUrl a.oauth)),
           a, [Effect.storageRead])
      ∧ ∃ rest, getAuthorizationUrl a.oauth = "https://ticktick.com/oauth/authorize" ++ rest := by
  refine ⟨rfl, "?" ++ urlencodeParams (authParams a.oauth), ?_⟩
  show AUTH_URL ++ "?" ++ urlencodeParams (authParams a.oauth) = _
  rw [String.append_assoc]
  rfl

/-- Claim C8 (confirmed): a failed refresh exchange
(`response.raise_for_status()` raising before any assignment to
`self._token`) leaves the handler exactly as it was — the held token is
replaced only on success, never partially — so `get_valid_token` run
immediately afterwards computes the same outcome as before the attempt. -/
theorem refresh_failure_preserves_held_token (importTime : Int) (h : OAuth2Handler)
    (status : Nat) (now : Int) (resp2 : HttpResult) :
    refreshToken importTime h (HttpResult.httpError status)
        = (Except.error (PyErr.httpStatusError status), h, [Effect.networkCall])
      ∧ getValidToken importTime
          (refreshToken importTime h (HttpResult.httpError status)).2.1 now resp2
          = getValidToken importTime h now resp2 :=
  ⟨rfl, rfl⟩

/-- Claim C10 (confirmed): the `update_task` tool merges its input into
the task fetched from the backend: each field supplied in the input
(other than `task_id`) overwrites the fetched value, and every field not
supplied — including the non-updatable `id`, `start_date`, `status` and
`priority` — keeps the value fetched before the update. -/
theorem update_task_merge (i : UpdateTaskInput) (c : Task) :
    (applyUpdate i c).id = c.id
      ∧ (applyUpdate i c).start_date = c.start_date
      ∧ (applyUpdate i c).status = c.status
      ∧ (applyUpdate i c).priority = c.priority
      ∧ (applyUpdate i c).title = i.title.getD c.title
      ∧ (applyUpdate i c).content
          = (match i.content with | some v => some v | none => c.content)
      ∧ (applyUpdate i c).project_id
          = (match i.project_id with | some v => some v | none => c.project_id)
      ∧ (applyUpdate i c).due_date
          = (match i.due_date with | some v => some v | none => c.due_date)
      ∧ (applyUpdate i c).tags = i.tags.getD c.tags := by
  obtain ⟨tid, ti, co, pr, dd, tg⟩ := i
  cases ti <;> cases co <;> cases pr <;> cases dd <;> cases tg <;>
    simp [applyUpdate, updateData, setattrTask]

/-- Claim C4 (confirmed): saving a valid token and loading it back
yields the token unchanged, field for field — `access_token`,
`token_type`, `expires_in`, `refresh_token`, `scope`, and the
`created_at` timestamp reconstructed from its `str(datetime)` rendering
by `fromisoformat`. -/
theorem save_load_roundtrip (t : OAuth2Token PyDateTime)
    (h : validPyDateTime t.created_at = true) :
    loadToken (saveToken t) = Except.ok (some t) := by
  obtain ⟨a, ty, e, r, sc, ca⟩ := t
  simp only at h
  simp only [saveToken, tokenToJson, loadToken, jlookup, fromIsoFormat, pyStr,
    String.reduceEq, if_false, if_true, reduceIte]
  rw [fromIso_pyStr ca h]
  cases r <;> cases sc <;>
    simp [validateToken, jlookup, pyRequiredStr, pyRequiredInt, pyOptionalStr, optStrJson]

def witDateTime : PyDateTime := ⟨2024, 1, 15, 12, 30, 45, 123456⟩

def witSavedToken : OAuth2Token PyDateTime :=
  { access_token := "acc", token_type := "bearer", expires_in := 3600,
    refresh_token := some "ref", scope := none, created_at := witDateTime }

/-- Witness for C4: a concrete token round-trips through the storage
format. -/
theorem save_load_roundtrip_witness :
    validPyDateTime witSavedToken.created_at = true
      ∧ loadToken (saveToken witSavedToken) = Except.ok (some witSavedToken) :=
  ⟨by decide, save_load_roundtrip witSavedToken (by decide)⟩

/-- Counterexample for C5: syntactically valid JSON that is not a
serialized token — here the empty JSON object — does NOT make `load`
return the non-error "no token" result: `data["created_at"]` raises
`KeyError`, which the `except (FileNotFoundError, json.JSONDecodeError)`
clause does not catch. -/
theorem load_valid_json_non_token_raises :
    loadToken (FileContent.json (JValue.jobj []))
        = Except.error (PyErr.keyError "created_at")
      ∧ loadToken (FileContent.json (JValue.jobj [])) ≠ Except.ok none := by
  constructor
  · rfl
  · decide

/-- Claim C5 as amended (corrected): `load` returns the non-error "no
token" result exactly when the file is absent (`FileNotFoundError`) or
its contents are not syntactically valid JSON (`JSONDecodeError`);
contents that are valid JSON but not a serialized token escape as an
uncaught exception instead. -/
theorem load_absent_or_invalid_json_returns_none :
    loadToken FileContent.absent = Except.ok none
      ∧ loadToken FileContent.notJson = Except.ok none :=
  ⟨rfl, rfl⟩

/-! ## Cache scenarios (the concrete runs behind C1 and C9) -/

/-- The backend's reply to the n-th `GET /tasks` request; the cache is
opaque to the payload, so the empty list suffices. -/
def taskBackend : Nat → List Task := fun _ => []

def c1FirstRead : Nat × ClientState := getTasksCall freshClient none 0

def c1FirstAwait : Except PyErr (List Task) × ClientState :=
  awaitTasksCoro taskBackend c1FirstRead.2 c1FirstRead.1

def c1AfterWrite : ClientState := createTaskCall c1FirstAwait.2

def c1SecondRead : Nat × ClientState := getTasksCall c1AfterWrite none 20

def c1SecondAwait : Except PyErr (List Task) × ClientState :=
  awaitTasksCoro taskBackend c1SecondRead.2 c1SecondRead.1

/-- Claim C1 (code bug): `get_tasks()` is cached at time 0 and awaited
(one backend fetch); `create_task` succeeds at time 10 and runs
`self._cache.clear()`; `get_tasks()` re-issued at time 20 does NOT
invoke the backend fetch again — the write cleared only the unused
instance cache, so the wrapper returns the cached (already awaited)
coroutine from the decorator's own cache: the fetch count stays 1 and
the caller gets no freshly fetched value at all. -/
theorem write_then_read_skips_backend_fetch :
    c1FirstAwait.2.fetchCount = 1
      ∧ c1AfterWrite.selfCache = []
      ∧ c1AfterWrite.tasksDecoCache = c1FirstAwait.2.tasksDecoCache
      ∧ c1SecondRead.1 = c1FirstRead.1
      ∧ c1SecondAwait.2.fetchCount = 1
      ∧ c1SecondAwait.1 = Except.error PyErr.runtimeErrorCoroutineReused := by
  decide

def c9FirstRead : Nat × ClientState := getTasksCall freshClient none 0

def c9FirstAwait : Except PyErr (List Task) × ClientState :=
  awaitTasksCoro taskBackend c9FirstRead.2 c9FirstRead.1

def c9SecondRead : Nat × ClientState := getTasksCall c9FirstAwait.2 none 10

def c9SecondAwait : Except PyErr (List Task) × ClientState :=
  awaitTasksCoro taskBackend c9SecondRead.2 c9SecondRead.1

/-- Claim C9 (code bug): two `get_tasks()` calls 10 seconds apart
(within the 300-second TTL, no invalidation) invoke the backend fetch
exactly once, as claimed — but the second call does not return the value
the first call produced: because `cachetools.cached` memoizes the
coroutine object of the `async def`, the second call receives the
already-awaited coroutine and awaiting it raises `RuntimeError`. -/
theorem cached_second_call_raises_instead_of_value :
    c9FirstAwait.1 = Except.ok (taskBackend 0)
      ∧ c9SecondRead.1 = c9FirstRead.1
      ∧ c9SecondAwait.2.fetchCount = 1
      ∧ c9SecondAwait.1 = Except.error PyErr.runtimeErrorCoroutineReused := by
  decide

end TickTick
